import Mathlib

/-!
Shallow embedding of the voice-recorder single-page application
(`src/voice_recorder_frontend/src/App.js`).

The application state kept in React hooks (`useState`/`useRef`) is modelled
as a single record `AppState`.  Each event handler of the component
(`onPlay`, `onDelete`, `stopRecording`, `startRecording`, the
`recorder.onstop` callback and the listeners attached to the playback
`Audio` element) becomes a pure function on `AppState`.  Platform behaviour
that the code only observes (whether `getUserMedia` grants a stream, whether
the `MediaRecorder` constructor or `audioEl.play()` succeeds, what the
duration probe reports) is passed in as explicit parameters.

JavaScript numbers that may be non-finite (`audio.duration`,
`formatDuration`'s argument) are modelled by `JSNum`; everywhere the code
can only see a finite number we use `ℚ`.
-/

/-- A JavaScript number: either a finite value or one of the non-finite
values `NaN`, `Infinity`, `-Infinity`. -/
inductive JSNum where
  | finite (x : ℚ)
  | nan
  | posInf
  | negInf
deriving DecidableEq

/-- `isFinite` from JavaScript. -/
def JSNum.isFinite : JSNum → Bool
  | JSNum.finite _ => true
  | _ => false

/-- The `permission` state: `'prompt' | 'granted' | 'denied'`. -/
inductive Permission where
  | prompt
  | granted
  | denied
deriving DecidableEq

/-- The `MediaRecorder.state` values the code distinguishes
(`stopRecording` only checks `state !== 'inactive'`). -/
inductive MRState where
  | inactive
  | recording
deriving DecidableEq

/-- One entry of the `recordings` list:
`{ id, url, blob, name, duration, createdAt }`.  The blob is subsumed by
its object URL here; `duration` is always finite because
`measureBlobDuration` resolves `isFinite(d) ? d : 0` (and `0` on error). -/
structure Recording where
  id : String
  url : String
  name : String
  duration : ℚ
  createdAt : String
deriving DecidableEq

/-- The playback `Audio` element as the code observes it: its source URL,
current position, reported duration and paused flag.  A freshly
constructed `new Audio(url)` starts at position `0`, paused, with
duration `NaN` (metadata not yet loaded). -/
structure AudioElem where
  url : String
  currentTime : ℚ
  duration : JSNum
  paused : Bool
deriving DecidableEq

/-- The component state: the `useState` hooks plus the `useRef` cells the
handlers read and write.  The recording-side visualizer refs
(`sourceNodeRef`/`analyserRef`/`rafIdRef`) are collapsed into
`recVisualizer`, the playback-side ones
(`playbackSourceRef`/`playbackAnalyserRef`/`playbackRafIdRef`) into
`playbackVisualizer`.  `releasedUrls` records every `URL.revokeObjectURL`
call on a recording's url. -/
structure AppState where
  permission : Permission
  isRecording : Bool
  recordings : List Recording
  error : String
  activeId : Option String
  isPlaying : Bool
  playProgress : ℚ
  mediaRecorder : Option MRState
  mediaStream : Bool
  recVisualizer : Bool
  playbackAudio : Option AudioElem
  playbackVisualizer : Bool
  releasedUrls : List String
deriving DecidableEq

/-- Observable side-effect steps of `onPlay`, used to state ordering
properties (teardown of the previous playback target happens before the
new one is attached). -/
inductive PlayAction where
  | pausePrev
  | teardownPlayback
  | attachPlayback
  | startPlay
deriving DecidableEq

/-- `cleanupPlaybackResources`: cancel the playback animation frame and
disconnect the playback source node. -/
def cleanupPlaybackResources (s : AppState) : AppState :=
  { s with playbackVisualizer := false }

/-- `cleanupRecordingResources`: cancel the recording animation frame,
disconnect the source node, stop the recorder and stop the stream tracks. -/
def cleanupRecordingResources (s : AppState) : AppState :=
  { s with recVisualizer := false, mediaRecorder := none, mediaStream := false }

/-- `onPlay(recId)`.  `playOk` says whether `audioEl.play()` succeeds.
Pausing an element fires its `pause` listener, which runs
`setIsPlaying(false)`; a successful `play()` fires the `play` listener,
which runs `setIsPlaying(true)`.  Returns the new state together with the
ordered list of observable playback actions the call performed. -/
def onPlay (s : AppState) (recId : String) (playOk : Bool) : AppState × List PlayAction :=
  if s.activeId = some recId ∧ s.isPlaying then
    -- pause in place
    match s.playbackAudio with
    | some el =>
        ({ s with playbackAudio := some { el with paused := true }, isPlaying := false },
         [PlayAction.pausePrev])
    | none => (s, [])
  else
    -- switch track
    let s1 : AppState := { s with activeId := some recId, playProgress := 0 }
    -- stop previous: pause it (fires its pause listener) and rewind it
    let prev :=
      match s1.playbackAudio with
      | some el =>
          (({ s1 with
              playbackAudio := some { el with paused := true, currentTime := 0 },
              isPlaying := false } : AppState),
           [PlayAction.pausePrev])
      | none => (s1, ([] : List PlayAction))
    let s2 := prev.1
    let s3 := cleanupPlaybackResources s2
    let tr := prev.2 ++ [PlayAction.teardownPlayback]
    match s3.recordings.find? (fun r => r.id == recId) with
    | none => (s3, tr)
    | some rec =>
        let el : AudioElem :=
          { url := rec.url, currentTime := 0, duration := JSNum.nan, paused := true }
        let s4 : AppState := { s3 with playbackAudio := some el, playbackVisualizer := true }
        if playOk then
          ({ s4 with playbackAudio := some { el with paused := false }, isPlaying := true },
           tr ++ [PlayAction.attachPlayback, PlayAction.startPlay])
        else
          ({ s4 with error := "Unable to play audio." },
           tr ++ [PlayAction.attachPlayback])

/-- `onDelete(recId)`: revoke the matching entry's object URL, drop every
entry whose id equals `recId`, and, when the deleted id is the active
playback target, stop and clear playback. -/
def onDelete (s : AppState) (recId : String) : AppState :=
  let released :=
    match s.recordings.find? (fun r => r.id == recId) with
    | some rec => s.releasedUrls ++ [rec.url]
    | none => s.releasedUrls
  let s1 : AppState :=
    { s with
      recordings := s.recordings.filter (fun r => r.id != recId),
      releasedUrls := released }
  if s.activeId = some recId then
    { cleanupPlaybackResources s1 with
      playbackAudio := none, activeId := none, isPlaying := false, playProgress := 0 }
  else
    s1

/-- The `timeupdate` listener's progress computation:
`audioEl.duration ? (audioEl.currentTime / audioEl.duration) * 100 : 0`.
`NaN` and `0` are falsy; division by `±Infinity` yields `±0`. -/
def timeupdateProgress (currentTime : ℚ) (duration : JSNum) : ℚ :=
  match duration with
  | JSNum.finite d => if d = 0 then 0 else currentTime / d * 100
  | _ => 0

/-- One `timeupdate` event on the playback element. -/
def onTimeupdate (s : AppState) (el : AudioElem) : AppState :=
  { s with playProgress := timeupdateProgress el.currentTime el.duration }

/-- The `ended` listener: stop, pin progress at 100, tear down the
playback visualizer. -/
def onEnded (s : AppState) : AppState :=
  { cleanupPlaybackResources s with isPlaying := false, playProgress := 100 }

/-- `progressBarStyle`'s width: `Math.max(0, Math.min(100, pct))`. -/
def progressBarWidth (pct : ℚ) : ℚ :=
  max 0 (min 100 pct)

/-- The platform capabilities the code probes:
`window.MediaRecorder`, `navigator.mediaDevices.getUserMedia`,
`MediaRecorder.isTypeSupported`. -/
structure Platform where
  hasMediaRecorder : Bool
  hasGetUserMedia : Bool
  hasIsTypeSupported : Bool
  isTypeSupported : String → Bool

/-- The candidate list probed by `pickBestAudioMime`, in preference
order. -/
def mimeCandidates : List String :=
  ["audio/webm;codecs=opus", "audio/webm", "audio/mp4",
   "audio/ogg;codecs=opus", "audio/ogg", "audio/wav"]

/-- `pickBestAudioMime()`: return the first candidate the encoder
supports, the empty string when `MediaRecorder` is missing or no
candidate is supported. -/
def pickBestAudioMime (p : Platform) : String :=
  if ¬ p.hasMediaRecorder then ""
  else
    match mimeCandidates.find? (fun t => p.hasIsTypeSupported && p.isTypeSupported t) with
    | some t => t
    | none => ""

/-- The `mimeType` memo: `supportsMediaRecorder() ? pickBestAudioMime() : ''`,
computed once at component construction and reused for the whole session. -/
def mimeType (p : Platform) : String :=
  if p.hasMediaRecorder then pickBestAudioMime p else ""

/-- The options object passed to `new MediaRecorder(stream, options)`:
`options.mimeType` is set only when the probed mime string is non-empty. -/
structure RecorderOptions where
  mimeType : Option String
deriving DecidableEq

/-- `startRecording()`.  `streamGranted` says whether `getUserMedia`
would resolve with a stream, `recorderOk` whether the
`new MediaRecorder(...)` construction (and `recorder.start`) succeeds.
Returns the new state and, when a recorder was constructed, the options
it was constructed with. -/
def startRecording (p : Platform) (s : AppState) (streamGranted recorderOk : Bool) :
    AppState × Option RecorderOptions :=
  let s0 : AppState := { s with error := "" }
  if ¬ (p.hasMediaRecorder ∧ p.hasGetUserMedia) then
    ({ s0 with error := "Audio recording is not supported in this browser." }, none)
  else if s0.mediaStream ∨ streamGranted then
    let s1 : AppState :=
      if s0.mediaStream then s0
      else { s0 with mediaStream := true, permission := Permission.granted }
    let mt := mimeType p
    let opts : RecorderOptions := { mimeType := if mt = "" then none else some mt }
    if recorderOk then
      ({ s1 with
          mediaRecorder := some MRState.recording,
          recVisualizer := true,
          isRecording := true }, some opts)
    else
      ({ s1 with error := "Unable to start recording." }, none)
  else
    ({ s0 with permission := Permission.denied,
               error := "Microphone permission denied or unavailable." }, none)

/-- `stopRecording()`: clear the error banner and, when a recorder exists
whose state is not `'inactive'`, call `recorder.stop()` (which makes the
recorder inactive; the `onstop` callback runs later). -/
def stopRecording (s : AppState) : AppState :=
  let s0 : AppState := { s with error := "" }
  match s0.mediaRecorder with
  | some MRState.recording => { s0 with mediaRecorder := some MRState.inactive }
  | _ => s0

/-- What the duration probe (`measureBlobDuration`) observes: either the
`loadedmetadata` event with some reported duration, or the `error`
event. -/
inductive ProbeOutcome where
  | metadata (d : JSNum)
  | probeError
deriving DecidableEq

/-- `measureBlobDuration`: resolves `isFinite(duration) ? duration : 0`
on `loadedmetadata` and `0` on `error`.  It never rejects. -/
def measureBlobDuration : ProbeOutcome → ℚ
  | ProbeOutcome.metadata (JSNum.finite x) => x
  | ProbeOutcome.metadata _ => 0
  | ProbeOutcome.probeError => 0

/-- The environment of one `recorder.onstop` run: whether the
blob-assembly steps (`new Blob` / `URL.createObjectURL`) throw, what the
duration probe observes, and the freshly generated id/url/name/timestamp. -/
structure StopInputs where
  assemblyOk : Bool
  probe : ProbeOutcome
  newId : String
  url : String
  name : String
  createdAt : String
deriving DecidableEq

/-- The `recorder.onstop` callback: on success prepend the new recording;
on a thrown error set the banner; in both cases the `finally` block runs
`cleanupRecordingResources()` and `setIsRecording(false)`. -/
def recorderOnStop (s : AppState) (inp : StopInputs) : AppState :=
  let s1 : AppState :=
    if inp.assemblyOk then
      { s with recordings :=
          { id := inp.newId, url := inp.url, name := inp.name,
            duration := measureBlobDuration inp.probe,
            createdAt := inp.createdAt } :: s.recordings }
    else
      { s with error := "Failed to process recording." }
  { cleanupRecordingResources s1 with isRecording := false }

/-- `Math.round`: round half toward positive infinity. -/
def jsRound (x : ℚ) : ℤ := (x + 1 / 2).floor

/-- `String.prototype.padStart(2, '0')`. -/
def padStart2 (s : String) : String :=
  if s.length ≥ 2 then s else String.mk (List.replicate (2 - s.length) '0') ++ s

/-- `formatDuration(sec)`: non-finite input renders `"0:00"`; a finite
input is rounded, split into minutes (`Math.floor(total / 60)`) and
seconds (`total % 60`, JavaScript's truncated remainder) and rendered
with the seconds padded to two digits. -/
def formatDuration (sec : JSNum) : String :=
  match sec with
  | JSNum.finite x =>
      let total := jsRound x
      let m := Int.fdiv total 60
      let s := Int.tmod total 60
      toString m ++ ":" ++ padStart2 (toString s)
  | _ => "0:00"

/-!
Structural lemmas about `onPlay`, shared by several of the claim theorems
below.
-/

/-- Pause branch of `onPlay`: the target is already active and playing, so
the element is paused in place and nothing else changes. -/
theorem onPlay_pause (s : AppState) (recId : String) (playOk : Bool) (el : AudioElem)
    (ha : s.activeId = some recId) (hp : s.isPlaying = true) (hel : s.playbackAudio = some el) :
    onPlay s recId playOk =
      ({ s with
         playbackAudio := some { el with paused := true },
         isPlaying := false },
       [PlayAction.pausePrev]) := by
  unfold onPlay
  rw [if_pos ⟨ha, by rw [hp]⟩, hel]

/-- Switch branch of `onPlay` when the requested id is found: the previous
element (if any) is paused and rewound, the playback visualizer is torn
down, and a fresh element is attached and played from position 0. -/
theorem onPlay_switch_found (s : AppState) (recId : String) (rec : Recording)
    (hns : ¬ (s.activeId = some recId ∧ s.isPlaying))
    (hfind : s.recordings.find? (fun r => r.id == recId) = some rec) :
    onPlay s recId true =
      ({ s with
         activeId := some recId,
         playProgress := 0,
         playbackAudio := some { url := rec.url, currentTime := 0,
                                 duration := JSNum.nan, paused := false },
         isPlaying := true,
         playbackVisualizer := true },
       (if s.playbackAudio.isSome then [PlayAction.pausePrev] else []) ++
         [PlayAction.teardownPlayback, PlayAction.attachPlayback, PlayAction.startPlay]) := by
  unfold onPlay
  rw [if_neg hns]
  cases hel : s.playbackAudio with
  | none =>
      simp [cleanupPlaybackResources, hfind]
  | some el =>
      simp [cleanupPlaybackResources, hfind]

/-- Switch branch of `onPlay` when the requested id is not found and no
previous element exists: teardown only. -/
theorem onPlay_switch_missing_none (s : AppState) (recId : String) (playOk : Bool)
    (hns : ¬ (s.activeId = some recId ∧ s.isPlaying))
    (hfind : s.recordings.find? (fun r => r.id == recId) = none)
    (hel : s.playbackAudio = none) :
    onPlay s recId playOk =
      ({ s with
         activeId := some recId,
         playProgress := 0,
         playbackVisualizer := false },
       [PlayAction.teardownPlayback]) := by
  unfold onPlay
  rw [if_neg hns]
  simp [hel, cleanupPlaybackResources, hfind]

/-- Switch branch of `onPlay` when the requested id is not found but a
previous element exists: the previous element is paused and rewound and
the visualizer torn down, but no new element is attached. -/
theorem onPlay_switch_missing_some (s : AppState) (recId : String) (playOk : Bool)
    (el : AudioElem)
    (hns : ¬ (s.activeId = some recId ∧ s.isPlaying))
    (hfind : s.recordings.find? (fun r => r.id == recId) = none)
    (hel : s.playbackAudio = some el) :
    onPlay s recId playOk =
      ({ s with
         activeId := some recId,
         playProgress := 0,
         playbackAudio := some { el with paused := true, currentTime := 0 },
         isPlaying := false,
         playbackVisualizer := false },
       [PlayAction.pausePrev, PlayAction.teardownPlayback]) := by
  unfold onPlay
  rw [if_neg hns]
  simp [hel, cleanupPlaybackResources, hfind]

/-- Every `onPlay` call leaves `activeId` set to the requested id. -/
theorem onPlay_activeId (s : AppState) (recId : String) (playOk : Bool) :
    (onPlay s recId playOk).1.activeId = some recId := by
  unfold onPlay
  by_cases h : s.activeId = some recId ∧ s.isPlaying
  · rw [if_pos h]
    cases s.playbackAudio <;> simp [h.1]
  · rw [if_neg h]
    cases s.playbackAudio <;> cases playOk <;>
      simp [cleanupPlaybackResources] <;> split <;> simp

/-- `onPlay` never changes the recordings list. -/
theorem onPlay_recordings (s : AppState) (recId : String) (playOk : Bool) :
    (onPlay s recId playOk).1.recordings = s.recordings := by
  unfold onPlay
  by_cases h : s.activeId = some recId ∧ s.isPlaying
  · rw [if_pos h]
    cases s.playbackAudio <;> simp
  · rw [if_neg h]
    cases s.playbackAudio <;> cases playOk <;>
      simp [cleanupPlaybackResources] <;> split <;> simp

/-- A recording with the requested id is found by `find?` whenever one
with that id is in the list. -/
theorem find?_id_of_mem (l : List Recording) (i : String)
    (h : ∃ r ∈ l, r.id = i) :
    ∃ r0, l.find? (fun x => x.id == i) = some r0 ∧ r0.id = i := by
  obtain ⟨r, hr, hid⟩ := h
  have hsome : (l.find? (fun x => x.id == i)).isSome :=
    List.find?_isSome.mpr ⟨r, hr, by simp [hid]⟩
  obtain ⟨r0, hr0⟩ := Option.isSome_iff_exists.mp hsome
  refine ⟨r0, hr0, ?_⟩
  have := List.find?_some hr0
  simpa using this

/-- `find?` returns the element after a prefix on which the predicate
fails. -/
theorem find?_append_cons {α : Type} (p : α → Bool) (l₁ : List α) (r : α) (l₂ : List α)
    (h₁ : ∀ x ∈ l₁, p x = false) (hr : p r = true) :
    List.find? p (l₁ ++ r :: l₂) = some r := by
  induction l₁ with
  | nil => simp [List.find?, hr]
  | cons a t ih =>
      have ha : p a = false := h₁ a (by simp)
      simp only [List.cons_append, List.find?, ha]
      exact ih (fun x hx => h₁ x (by simp [hx]))

/-- `filter` drops exactly the middle element when the predicate holds
everywhere else and fails on it. -/
theorem filter_append_cons_drop {α : Type} (q : α → Bool) (l₁ : List α) (r : α) (l₂ : List α)
    (h₁ : ∀ x ∈ l₁, q x = true) (hr : q r = false) (h₂ : ∀ x ∈ l₂, q x = true) :
    List.filter q (l₁ ++ r :: l₂) = l₁ ++ l₂ := by
  induction l₁ with
  | nil =>
      simp only [List.nil_append, List.filter_cons, hr]
      simp only [Bool.false_eq_true, if_false]
      exact List.filter_eq_self.mpr h₂
  | cons a t ih =>
      have ha : q a = true := h₁ a (by simp)
      simp only [List.cons_append, List.filter_cons, ha, if_true]
      rw [ih (fun x hx => h₁ x (by simp [hx]))]

/-!
Claim theorems.
-/

/-- C1 (amended): toggling play on the currently-playing recording pauses
it in place — no teardown, element position and stored progress
preserved.  Toggling play again on the same id, however, does not resume
from the paused position: it takes the switch-track path, resets progress
to 0 and starts a fresh playback element from position 0. -/
theorem onPlay_pause_in_place_then_restart (s : AppState) (recId : String)
    (el : AudioElem) (rec0 : Recording)
    (ha : s.activeId = some recId) (hp : s.isPlaying = true)
    (hel : s.playbackAudio = some el)
    (hfind : s.recordings.find? (fun r => r.id == recId) = some rec0) :
    onPlay s recId true =
      ({ s with
         playbackAudio := some { el with paused := true },
         isPlaying := false },
       [PlayAction.pausePrev]) ∧
    (onPlay (onPlay s recId true).1 recId true).1 =
      { s with
        activeId := some recId,
        playProgress := 0,
        playbackAudio := some { url := rec0.url, currentTime := 0,
                                duration := JSNum.nan, paused := false },
        isPlaying := true,
        playbackVisualizer := true } := by
  have h1 := onPlay_pause s recId true el ha hp hel
  refine ⟨h1, ?_⟩
  rw [h1]
  set s1 : AppState :=
    { s with
      playbackAudio := some { el with paused := true },
      isPlaying := false } with hs1
  have hns : ¬ (s1.activeId = some recId ∧ s1.isPlaying) := by
    rintro ⟨-, hpl⟩
    simp [hs1] at hpl
  have hfind1 : s1.recordings.find? (fun r => r.id == recId) = some rec0 := hfind
  rw [onPlay_switch_found s1 recId rec0 hns hfind1]

/-- C2 (amended): when the `onstop` processing throws (blob assembly), no
recording is appended, the error banner is set, capture resources are
released and the session returns to idle; when only the duration probe
fails, the probe soft-fails to duration 0 and the recording IS appended,
with the same resource release and return to idle. -/
theorem onstop_failure_handling (s : AppState) (inp : StopInputs) :
    (inp.assemblyOk = false →
      (recorderOnStop s inp).recordings = s.recordings ∧
      (recorderOnStop s inp).error = "Failed to process recording." ∧
      (recorderOnStop s inp).isRecording = false ∧
      (recorderOnStop s inp).mediaRecorder = none ∧
      (recorderOnStop s inp).mediaStream = false ∧
      (recorderOnStop s inp).recVisualizer = false) ∧
    (inp.assemblyOk = true → inp.probe = ProbeOutcome.probeError →
      (recorderOnStop s inp).recordings =
        { id := inp.newId, url := inp.url, name := inp.name,
          duration := 0, createdAt := inp.createdAt } :: s.recordings ∧
      (recorderOnStop s inp).isRecording = false ∧
      (recorderOnStop s inp).mediaRecorder = none ∧
      (recorderOnStop s inp).mediaStream = false ∧
      (recorderOnStop s inp).recVisualizer = false) := by
  constructor
  · intro hfail
    simp [recorderOnStop, cleanupRecordingResources, hfail]
  · intro hok hprobe
    simp [recorderOnStop, cleanupRecordingResources, hok, hprobe, measureBlobDuration]

/-- C3 (amended): `pickBestAudioMime` returns the first supported entry of
the fixed preference-ordered candidate list (locked in once per session
via the memo); when no candidate is supported it returns the empty
string, but recording is NOT disabled — `startRecording` passes no
`mimeType` option and still constructs the recorder.  Recording is
disabled only when `MediaRecorder` or `getUserMedia` is missing, in which
case no recorder is created and the session state is untouched. -/
theorem mime_selection_and_recording_enabled :
    (∀ p : Platform, p.hasMediaRecorder = true → p.hasIsTypeSupported = true →
      ((p.isTypeSupported "audio/webm;codecs=opus" = true →
          pickBestAudioMime p = "audio/webm;codecs=opus") ∧
       (p.isTypeSupported "audio/webm;codecs=opus" = false →
          p.isTypeSupported "audio/webm" = true →
          pickBestAudioMime p = "audio/webm") ∧
       (p.isTypeSupported "audio/webm;codecs=opus" = false →
          p.isTypeSupported "audio/webm" = false →
          p.isTypeSupported "audio/mp4" = true →
          pickBestAudioMime p = "audio/mp4") ∧
       (p.isTypeSupported "audio/webm;codecs=opus" = false →
          p.isTypeSupported "audio/webm" = false →
          p.isTypeSupported "audio/mp4" = false →
          p.isTypeSupported "audio/ogg;codecs=opus" = true →
          pickBestAudioMime p = "audio/ogg;codecs=opus") ∧
       (p.isTypeSupported "audio/webm;codecs=opus" = false →
          p.isTypeSupported "audio/webm" = false →
          p.isTypeSupported "audio/mp4" = false →
          p.isTypeSupported "audio/ogg;codecs=opus" = false →
          p.isTypeSupported "audio/ogg" = true →
          pickBestAudioMime p = "audio/ogg") ∧
       (p.isTypeSupported "audio/webm;codecs=opus" = false →
          p.isTypeSupported "audio/webm" = false →
          p.isTypeSupported "audio/mp4" = false →
          p.isTypeSupported "audio/ogg;codecs=opus" = false →
          p.isTypeSupported "audio/ogg" = false →
          p.isTypeSupported "audio/wav" = true →
          pickBestAudioMime p = "audio/wav") ∧
       ((∀ t ∈ mimeCandidates, p.isTypeSupported t = false) →
          pickBestAudioMime p = ""))) ∧
    (∀ (p : Platform) (s : AppState) (streamGranted : Bool),
      p.hasMediaRecorder = true → p.hasGetUserMedia = true →
      (∀ t ∈ mimeCandidates, p.isTypeSupported t = false) →
      (s.mediaStream = true ∨ streamGranted = true) →
      (startRecording p s streamGranted true).2 = some { mimeType := none } ∧
      (startRecording p s streamGranted true).1.mediaRecorder = some MRState.recording ∧
      (startRecording p s streamGranted true).1.isRecording = true) ∧
    (∀ (p : Platform) (s : AppState) (streamGranted recorderOk : Bool),
      ¬ (p.hasMediaRecorder = true ∧ p.hasGetUserMedia = true) →
      (startRecording p s streamGranted recorderOk).2 = none ∧
      (startRecording p s streamGranted recorderOk).1.mediaRecorder = s.mediaRecorder ∧
      (startRecording p s streamGranted recorderOk).1.isRecording = s.isRecording ∧
      (startRecording p s streamGranted recorderOk).1.error =
        "Audio recording is not supported in this browser.") := by
  refine ⟨?_, ?_, ?_⟩
  · intro p hmr hits
    refine ⟨?_, ?_, ?_, ?_, ?_, ?_, ?_⟩
    · intro h0
      simp [pickBestAudioMime, mimeCandidates, List.find?, hmr, hits, h0]
    · intro h0 h1
      simp [pickBestAudioMime, mimeCandidates, List.find?, hmr, hits, h0, h1]
    · intro h0 h1 h2
      simp [pickBestAudioMime, mimeCandidates, List.find?, hmr, hits, h0, h1, h2]
    · intro h0 h1 h2 h3
      simp [pickBestAudioMime, mimeCandidates, List.find?, hmr, hits, h0, h1, h2, h3]
    · intro h0 h1 h2 h3 h4
      simp [pickBestAudioMime, mimeCandidates, List.find?, hmr, hits, h0, h1, h2, h3, h4]
    · intro h0 h1 h2 h3 h4 h5
      simp [pickBestAudioMime, mimeCandidates, List.find?, hmr, hits,
            h0, h1, h2, h3, h4, h5]
    · intro hall
      simp [pickBestAudioMime, mimeCandidates, List.find?, hmr, hits, hall]
  · intro p s streamGranted hmr hgum hnone hstream
    have h0 := hnone "audio/webm;codecs=opus" (by simp [mimeCandidates])
    have h1 := hnone "audio/webm" (by simp [mimeCandidates])
    have h2 := hnone "audio/mp4" (by simp [mimeCandidates])
    have h3 := hnone "audio/ogg;codecs=opus" (by simp [mimeCandidates])
    have h4 := hnone "audio/ogg" (by simp [mimeCandidates])
    have h5 := hnone "audio/wav" (by simp [mimeCandidates])
    have hmime : mimeType p = "" := by
      simp [mimeType, pickBestAudioMime, mimeCandidates, List.find?, hmr,
            h0, h1, h2, h3, h4, h5]
    rcases hstream with hs | hs <;>
      refine ⟨?_, ?_, ?_⟩ <;>
        simp [startRecording, hmr, hgum, hs, hmime]
  · intro p s streamGranted recorderOk hnot
    refine ⟨?_, ?_, ?_, ?_⟩ <;> simp [startRecording] <;>
      simp only [Classical.not_and_iff_or_not_not] at hnot <;>
        rcases hnot with h | h <;> simp [h]

/-- C4 (amended): the `timeupdate` listener stores the raw ratio
`currentTime / duration * 100` (0 when the duration is 0 or non-finite)
without clamping; the clamp to `[0,100]` is applied at render time by
`progressBarStyle`.  The stored value does lie in `[0,100]` whenever the
element reports `0 ≤ currentTime ≤ duration`. -/
theorem timeupdate_progress_and_clamp :
    (∀ (s : AppState) (el : AudioElem),
      (onTimeupdate s el).playProgress = timeupdateProgress el.currentTime el.duration) ∧
    (∀ p : ℚ, 0 ≤ progressBarWidth p ∧ progressBarWidth p ≤ 100) ∧
    (∀ cur d : ℚ, 0 ≤ cur → cur ≤ d → 0 < d →
      0 ≤ timeupdateProgress cur (JSNum.finite d) ∧
        timeupdateProgress cur (JSNum.finite d) ≤ 100) ∧
    (∀ (cur : ℚ) (d : JSNum), d.isFinite = false → timeupdateProgress cur d = 0) := by
  refine ⟨fun s el => rfl, ?_, ?_, ?_⟩
  · intro p
    constructor
    · exact le_max_left 0 _
    · exact max_le (by norm_num) (min_le_left 100 p)
  · intro cur d hcur hcd hd
    have hne : d ≠ 0 := ne_of_gt hd
    constructor
    · simp only [timeupdateProgress, if_neg hne]
      positivity
    · simp only [timeupdateProgress, if_neg hne]
      have hdiv : cur / d ≤ 1 := (div_le_one hd).mpr hcd
      nlinarith
  · intro cur d hd
    cases d <;> simp [timeupdateProgress] <;> simp [JSNum.isFinite] at hd

/-- C5: deleting an id that occurs exactly once removes exactly that
entry (all others unchanged, in order), releases its object URL, and —
exactly when the deleted id was the active playback target — clears the
playback slot (`activeId = none`, `isPlaying = false`, progress 0,
element and visualizer torn down); otherwise the playback slot is
untouched. -/
theorem onDelete_removes_exactly_one (s : AppState) (recId : String)
    (l₁ : List Recording) (r : Recording) (l₂ : List Recording)
    (hsplit : s.recordings = l₁ ++ r :: l₂) (hid : r.id = recId)
    (h₁ : ∀ x ∈ l₁, x.id ≠ recId) (h₂ : ∀ x ∈ l₂, x.id ≠ recId) :
    (onDelete s recId).recordings = l₁ ++ l₂ ∧
    r.url ∈ (onDelete s recId).releasedUrls ∧
    (s.activeId = some recId →
      (onDelete s recId).activeId = none ∧
      (onDelete s recId).isPlaying = false ∧
      (onDelete s recId).playProgress = 0 ∧
      (onDelete s recId).playbackAudio = none ∧
      (onDelete s recId).playbackVisualizer = false) ∧
    (s.activeId ≠ some recId →
      (onDelete s recId).activeId = s.activeId ∧
      (onDelete s recId).isPlaying = s.isPlaying ∧
      (onDelete s recId).playProgress = s.playProgress ∧
      (onDelete s recId).playbackAudio = s.playbackAudio ∧
      (onDelete s recId).playbackVisualizer = s.playbackVisualizer) := by
  have hfind : s.recordings.find? (fun x => x.id == recId) = some r := by
    rw [hsplit]
    exact find?_append_cons _ l₁ r l₂
      (fun x hx => by simp [h₁ x hx]) (by simp [hid])
  have hfilter : s.recordings.filter (fun x => x.id != recId) = l₁ ++ l₂ := by
    rw [hsplit]
    exact filter_append_cons_drop _ l₁ r l₂
      (fun x hx => by simp [h₁ x hx]) (by simp [hid]) (fun x hx => by simp [h₂ x hx])
  by_cases hact : s.activeId = some recId <;>
    simp [onDelete, hfind, hfilter, cleanupPlaybackResources, hact]

/-- C6: selecting playback on recording A and then on a distinct stored
recording B leaves exactly one active playback target, namely B (the
playback slot holds a single optional id, so two simultaneous targets are
impossible by construction), and in the second call the teardown of the
previous target strictly precedes the attachment of the new element. -/
theorem onPlay_single_active_target (s : AppState) (A B : String) (okA : Bool)
    (hAB : A ≠ B) (hB : ∃ r ∈ s.recordings, r.id = B) :
    ((onPlay (onPlay s A okA).1 B true).1.activeId = some B) ∧
    ((onPlay (onPlay s A okA).1 B true).1.isPlaying = true) ∧
    PlayAction.teardownPlayback ∈ (onPlay (onPlay s A okA).1 B true).2 ∧
    PlayAction.attachPlayback ∈ (onPlay (onPlay s A okA).1 B true).2 ∧
    ((onPlay (onPlay s A okA).1 B true).2).indexOf PlayAction.teardownPlayback <
      ((onPlay (onPlay s A okA).1 B true).2).indexOf PlayAction.attachPlayback := by
  set s1 := (onPlay s A okA).1 with hs1
  have h1a : s1.activeId = some A := onPlay_activeId s A okA
  have h1r : s1.recordings = s.recordings := onPlay_recordings s A okA
  have hns : ¬ (s1.activeId = some B ∧ s1.isPlaying) := by
    rintro ⟨hact, -⟩
    rw [h1a] at hact
    exact hAB (by injection hact)
  obtain ⟨rb, hfind, hid⟩ := find?_id_of_mem s.recordings B hB
  rw [← h1r] at hfind
  rw [onPlay_switch_found s1 B rb hns hfind]
  cases hel : s1.playbackAudio.isSome <;> simp [hel, List.indexOf] <;> decide

/-- C7: every successful stop prepends exactly one new recording (store
size increases by one), and two successive successful stops with distinct
generated ids yield the list `[second, first, ...]` whose two newest
entries carry distinct ids. -/
theorem onstop_appends_front (s : AppState) (i1 i2 : StopInputs)
    (h1 : i1.assemblyOk = true) (h2 : i2.assemblyOk = true)
    (hid : i1.newId ≠ i2.newId) :
    (recorderOnStop s i1).recordings.length = s.recordings.length + 1 ∧
    (recorderOnStop s i1).recordings =
      { id := i1.newId, url := i1.url, name := i1.name,
        duration := measureBlobDuration i1.probe, createdAt := i1.createdAt } :: s.recordings ∧
    (recorderOnStop (recorderOnStop s i1) i2).recordings =
      { id := i2.newId, url := i2.url, name := i2.name,
        duration := measureBlobDuration i2.probe, createdAt := i2.createdAt } ::
      ({ id := i1.newId, url := i1.url, name := i1.name,
         duration := measureBlobDuration i1.probe, createdAt := i1.createdAt } : Recording) ::
      s.recordings ∧
    ({ id := i2.newId, url := i2.url, name := i2.name,
       duration := measureBlobDuration i2.probe, createdAt := i2.createdAt } : Recording).id ≠
      ({ id := i1.newId, url := i1.url, name := i1.name,
         duration := measureBlobDuration i1.probe, createdAt := i1.createdAt } : Recording).id ∧
    (recorderOnStop s i1).isRecording = false := by
  refine ⟨?_, ?_, ?_, ?_, ?_⟩ <;>
    simp [recorderOnStop, cleanupRecordingResources, h1, h2]
  exact fun h => hid h.symm

/-- C8: calling `stopRecording` while the session is idle (no recorder
exists) only clears the error banner: the session stays idle and the
recordings list and the whole playback slot are unchanged. -/
theorem stopRecording_idle_noop (s : AppState)
    (hrec : s.mediaRecorder = none) (hidle : s.isRecording = false) :
    stopRecording s = { s with error := "" } ∧
    (stopRecording s).isRecording = false ∧
    (stopRecording s).recordings = s.recordings ∧
    (stopRecording s).activeId = s.activeId ∧
    (stopRecording s).isPlaying = s.isPlaying ∧
    (stopRecording s).playProgress = s.playProgress ∧
    (stopRecording s).playbackAudio = s.playbackAudio ∧
    (stopRecording s).mediaRecorder = none := by
  have h : stopRecording s = { s with error := "" } := by
    simp [stopRecording, hrec]
  refine ⟨h, ?_, ?_, ?_, ?_, ?_, ?_, ?_⟩ <;> rw [h] <;> simp [hidle, hrec]

/-- Rendering of a nonnegative total-seconds count the way the spec
describes it: minutes, a colon, and the seconds zero-padded to two
digits. -/
def specMinutesSeconds (n : ℕ) : String :=
  toString (n / 60) ++ ":" ++
    (if n % 60 < 10 then "0" ++ toString (n % 60) else toString (n % 60))

/-- `jsRound` agrees with the mathematical floor of `x + 1/2`. -/
theorem jsRound_eq_floor (x : ℚ) : jsRound x = ⌊x + 1 / 2⌋ :=
  (Rat.floor_def' _).trans (Rat.floor_def).symm

/-- `padStart(2, '0')` on the decimal rendering of a seconds value below
60 is exactly the two-digit zero padding. -/
theorem padStart2_toString_lt60 (k : ℕ) (hk : k < 60) :
    padStart2 (toString k) = if k < 10 then "0" ++ toString k else toString k := by
  interval_cases k <;> rfl

/-- `Int.fdiv` of a natural by 60 is natural division. -/
theorem int_fdiv_ofNat_sixty (n : ℕ) : Int.fdiv (Int.ofNat n) 60 = Int.ofNat (n / 60) := by
  cases n with
  | zero => rfl
  | succ m => rfl

/-- `formatDuration` on a nonnegative finite input renders the rounded
total seconds as minutes and zero-padded seconds. -/
theorem formatDuration_eq_spec (x : ℚ) (hx : 0 ≤ x) :
    formatDuration (JSNum.finite x) = specMinutesSeconds (jsRound x).toNat := by
  have hjr : 0 ≤ jsRound x := by
    rw [jsRound_eq_floor]
    exact Int.floor_nonneg.mpr (by linarith)
  obtain ⟨n, hn⟩ : ∃ n : ℕ, jsRound x = Int.ofNat n :=
    ⟨(jsRound x).toNat, (Int.toNat_of_nonneg hjr).symm⟩
  have htm : Int.tmod (Int.ofNat n) 60 = Int.ofNat (n % 60) := rfl
  have hmod : n % 60 < 60 := Nat.mod_lt _ (by norm_num)
  simp only [formatDuration, hn, int_fdiv_ofNat_sixty, htm, specMinutesSeconds]
  have hts : ∀ k : ℕ, toString (Int.ofNat k) = toString k := fun k => rfl
  rw [hts, hts, padStart2_toString_lt60 _ hmod,
      show (Int.ofNat n).toNat = n from rfl]

/-- C9: `formatDuration` maps 0 to "0:00", 65 to "1:05" and every
non-finite input (`NaN`, `Infinity`, `-Infinity`) to "0:00"; and for
every nonnegative finite input it renders the rounded integer seconds as
minutes:seconds with the seconds zero-padded to two digits. -/
theorem formatDuration_spec :
    formatDuration (JSNum.finite 0) = "0:00" ∧
    formatDuration (JSNum.finite 65) = "1:05" ∧
    formatDuration JSNum.nan = "0:00" ∧
    formatDuration JSNum.posInf = "0:00" ∧
    formatDuration JSNum.negInf = "0:00" ∧
    (∀ x : ℚ, 0 ≤ x →
      formatDuration (JSNum.finite x) = specMinutesSeconds (jsRound x).toNat) := by
  refine ⟨?_, ?_, rfl, rfl, rfl, formatDuration_eq_spec⟩
  · have h0 : jsRound 0 = 0 := by rw [jsRound_eq_floor]; norm_num
    rw [formatDuration_eq_spec 0 le_rfl, h0]
    rfl
  · have h65 : jsRound 65 = 65 := by rw [jsRound_eq_floor]; norm_num
    rw [formatDuration_eq_spec 65 (by norm_num), h65]
    rfl

/-- C10: toggling play with an id no stored recording carries (given the
reachability invariants that `isPlaying` implies a playback element
exists and an active-but-absent id is never in the playing state) still
sets `activeId` to that id and resets progress to 0, after tearing down
any previous playback, but attaches nothing and starts no playback. -/
theorem onPlay_missing_id (s : AppState) (recId : String) (playOk : Bool)
    (hmiss : ∀ r ∈ s.recordings, r.id ≠ recId)
    (hinv : s.isPlaying = true → s.playbackAudio.isSome)
    (hng : s.activeId = some recId → s.isPlaying = false) :
    (onPlay s recId playOk).1.activeId = some recId ∧
    (onPlay s recId playOk).1.playProgress = 0 ∧
    (onPlay s recId playOk).1.isPlaying = false ∧
    (onPlay s recId playOk).1.playbackVisualizer = false ∧
    PlayAction.teardownPlayback ∈ (onPlay s recId playOk).2 ∧
    PlayAction.attachPlayback ∉ (onPlay s recId playOk).2 ∧
    PlayAction.startPlay ∉ (onPlay s recId playOk).2 := by
  have hns : ¬ (s.activeId = some recId ∧ s.isPlaying) := by
    rintro ⟨hact, hp⟩
    rw [hng hact] at hp
    exact Bool.false_ne_true hp
  have hfind : s.recordings.find? (fun r => r.id == recId) = none :=
    List.find?_eq_none.mpr (fun r hr => by simp [hmiss r hr])
  cases hel : s.playbackAudio with
  | none =>
      have hp0 : s.isPlaying = false := by
        cases hp : s.isPlaying
        · rfl
        · have := hinv hp
          rw [hel] at this
          simp at this
      rw [onPlay_switch_missing_none s recId playOk hns hfind hel]
      simp [hp0]
  | some el =>
      rw [onPlay_switch_missing_some s recId playOk el hns hfind hel]
      simp

/-!
Concrete states and inputs used by the counterexamples and witnesses.
-/

/-- A stored recording with id "a". -/
def r_a : Recording :=
  { id := "a", url := "ua", name := "Rec a", duration := 10, createdAt := "ta" }

/-- A stored recording with id "b". -/
def r_b : Recording :=
  { id := "b", url := "ub", name := "Rec b", duration := 7, createdAt := "tb" }

/-- A freshly loaded idle state with a stale error banner. -/
def s_idle : AppState :=
  { permission := Permission.prompt, isRecording := false, recordings := [],
    error := "old error", activeId := none, isPlaying := false, playProgress := 0,
    mediaRecorder := none, mediaStream := false, recVisualizer := false,
    playbackAudio := none, playbackVisualizer := false, releasedUrls := [] }

/-- Two stored recordings, "a" selected but paused. -/
def s_two : AppState :=
  { permission := Permission.granted, isRecording := false, recordings := [r_b, r_a],
    error := "", activeId := some "a", isPlaying := false, playProgress := 40,
    mediaRecorder := none, mediaStream := false, recVisualizer := false,
    playbackAudio := none, playbackVisualizer := false, releasedUrls := [] }

/-- A state in the middle of a capture session. -/
def s_recording : AppState :=
  { permission := Permission.granted, isRecording := true, recordings := [],
    error := "", activeId := none, isPlaying := false, playProgress := 0,
    mediaRecorder := some MRState.recording, mediaStream := true, recVisualizer := true,
    playbackAudio := none, playbackVisualizer := false, releasedUrls := [] }

/-- A playback element for `r_a`, 5 seconds into a 10-second recording. -/
def el_a : AudioElem :=
  { url := "ua", currentTime := 5, duration := JSNum.finite 10, paused := false }

/-- Recording "a" actively playing at position 5 with progress 50. -/
def s_playing : AppState :=
  { permission := Permission.granted, isRecording := false, recordings := [r_a],
    error := "", activeId := some "a", isPlaying := true, playProgress := 50,
    mediaRecorder := none, mediaStream := false, recVisualizer := false,
    playbackAudio := some el_a, playbackVisualizer := true, releasedUrls := [] }

/-- An `onstop` run whose blob assembly throws. -/
def inp_fail : StopInputs :=
  { assemblyOk := false, probe := ProbeOutcome.metadata (JSNum.finite 3),
    newId := "i0", url := "u0", name := "n0", createdAt := "t0" }

/-- An `onstop` run whose blob assembly succeeds but whose duration probe
fires its error event. -/
def inp_probeError : StopInputs :=
  { assemblyOk := true, probe := ProbeOutcome.probeError,
    newId := "i1", url := "u1", name := "n1", createdAt := "t1" }

/-- A fully successful `onstop` run. -/
def inp_ok1 : StopInputs :=
  { assemblyOk := true, probe := ProbeOutcome.metadata (JSNum.finite 3),
    newId := "i2", url := "u2", name := "n2", createdAt := "t2" }

/-- A second fully successful `onstop` run with a distinct id. -/
def inp_ok2 : StopInputs :=
  { assemblyOk := true, probe := ProbeOutcome.metadata (JSNum.finite 4),
    newId := "i3", url := "u3", name := "n3", createdAt := "t3" }

/-- A platform with the capture APIs present but no supported encoding
candidate. -/
def pNoCandidates : Platform :=
  { hasMediaRecorder := true, hasGetUserMedia := true,
    hasIsTypeSupported := true, isTypeSupported := fun _ => false }

/-- A platform on which every encoding candidate is supported. -/
def pAllSupported : Platform :=
  { hasMediaRecorder := true, hasGetUserMedia := true,
    hasIsTypeSupported := true, isTypeSupported := fun _ => true }

/-!
Counterexamples and witnesses.
-/

/-- C1 (counterexample): with recording "a" playing at position 5,
toggling play pauses in place (position 5 kept, progress 50 kept), but
toggling play again does not resume from position 5 — the state holds a
fresh element at position 0 with progress reset to 0, refuting "resumes
playback from the paused position rather than restarting from
position 0". -/
theorem onPlay_pause_then_toggle_restarts_counterexample :
    (onPlay s_playing "a" true).1.playbackAudio =
      some { url := "ua", currentTime := 5, duration := JSNum.finite 10, paused := true } ∧
    (onPlay s_playing "a" true).1.playProgress = 50 ∧
    (onPlay s_playing "a" true).1.isPlaying = false ∧
    (onPlay (onPlay s_playing "a" true).1 "a" true).1.playbackAudio =
      some { url := "ua", currentTime := 0, duration := JSNum.nan, paused := false } ∧
    (onPlay (onPlay s_playing "a" true).1 "a" true).1.playProgress = 0 ∧
    ¬ ((onPlay (onPlay s_playing "a" true).1 "a" true).1.playbackAudio =
        some { url := "ua", currentTime := 5, duration := JSNum.finite 10, paused := false }) := by
  decide

/-- C1 (witness): the amended theorem applied to the concrete playing
state. -/
theorem onPlay_pause_in_place_then_restart_witness :
    (onPlay s_playing "a" true).1.playProgress = 50 ∧
    (onPlay (onPlay s_playing "a" true).1 "a" true).1 =
      { s_playing with
        activeId := some "a",
        playProgress := 0,
        playbackAudio := some { url := "ua", currentTime := 0,
                                duration := JSNum.nan, paused := false },
        isPlaying := true,
        playbackVisualizer := true } := by
  have h := onPlay_pause_in_place_then_restart s_playing "a" el_a r_a rfl rfl rfl (by decide)
  exact ⟨by rw [h.1]; rfl, h.2⟩

/-- C2 (counterexample): a stop whose duration probe errors still appends
a recording (with duration 0), refuting "no new Recording is appended"
for the probe-failure case. -/
theorem onstop_probe_error_appends_counterexample :
    (recorderOnStop s_recording inp_probeError).recordings =
      [{ id := "i1", url := "u1", name := "n1", duration := 0, createdAt := "t1" }] ∧
    ¬ ((recorderOnStop s_recording inp_probeError).recordings = s_recording.recordings) ∧
    (recorderOnStop s_recording inp_probeError).isRecording = false := by
  decide

/-- C2 (witness): the amended theorem applied to a failing assembly and to
a failing probe. -/
theorem onstop_failure_handling_witness :
    (recorderOnStop s_recording inp_fail).recordings = s_recording.recordings ∧
    (recorderOnStop s_recording inp_fail).isRecording = false ∧
    (recorderOnStop s_recording inp_probeError).recordings =
      { id := "i1", url := "u1", name := "n1", duration := 0, createdAt := "t1" } ::
        s_recording.recordings :=
  ⟨((onstop_failure_handling s_recording inp_fail).1 rfl).1,
   ((onstop_failure_handling s_recording inp_fail).1 rfl).2.2.1,
   ((onstop_failure_handling s_recording inp_probeError).2 rfl rfl).1⟩

/-- C3 (counterexample): on a platform where no encoding candidate is
supported but the capture APIs exist, a start attempt still creates a
recorder (with no mimeType option) and the session enters the recording
state, refuting "recording is disabled" for that case. -/
theorem no_mime_still_records_counterexample :
    pickBestAudioMime pNoCandidates = "" ∧
    (startRecording pNoCandidates s_idle true true).1.isRecording = true ∧
    (startRecording pNoCandidates s_idle true true).1.mediaRecorder =
      some MRState.recording ∧
    (startRecording pNoCandidates s_idle true true).2 = some { mimeType := none } := by
  decide

/-- C3 (witness): the amended theorem applied to a platform supporting
everything (first candidate wins) and to the no-candidate platform. -/
theorem mime_selection_witness :
    (pAllSupported.isTypeSupported "audio/webm;codecs=opus" = true ∧
      pickBestAudioMime pAllSupported = "audio/webm;codecs=opus") ∧
    ((startRecording pNoCandidates s_idle true true).1.isRecording = true ∧
      (startRecording pNoCandidates s_idle true true).2 = some { mimeType := none }) :=
  ⟨⟨rfl, (mime_selection_and_recording_enabled.1 pAllSupported rfl rfl).1 rfl⟩,
   ⟨(mime_selection_and_recording_enabled.2.1 pNoCandidates s_idle true rfl rfl
       (fun _ _ => rfl) (Or.inr rfl)).2.2,
    (mime_selection_and_recording_enabled.2.1 pNoCandidates s_idle true rfl rfl
       (fun _ _ => rfl) (Or.inr rfl)).1⟩⟩

/-- C4 (counterexample): a timeupdate reporting position 3 on a 2-second
duration stores progress 150 — the stored value is not clamped to
`[0,100]` (only the rendered bar width is). -/
theorem timeupdate_unclamped_counterexample :
    (onTimeupdate s_idle
        { url := "u", currentTime := 3, duration := JSNum.finite 2, paused := false }
      ).playProgress = 150 ∧
    ¬ ((onTimeupdate s_idle
          { url := "u", currentTime := 3, duration := JSNum.finite 2, paused := false }
        ).playProgress ≤ 100) ∧
    progressBarWidth 150 = 100 := by
  refine ⟨?_, ?_, ?_⟩
  · show timeupdateProgress 3 (JSNum.finite 2) = 150
    simp [timeupdateProgress]
    norm_num
  · show ¬ (timeupdateProgress 3 (JSNum.finite 2) ≤ 100)
    simp [timeupdateProgress]
    norm_num
  · simp [progressBarWidth]
    norm_num

/-- C4 (witness): the amended theorem applied at width 150 and at the
in-range position 1 of duration 2. -/
theorem timeupdate_progress_witness :
    (0 ≤ progressBarWidth 150 ∧ progressBarWidth 150 ≤ 100) ∧
    (0 ≤ timeupdateProgress 1 (JSNum.finite 2) ∧
      timeupdateProgress 1 (JSNum.finite 2) ≤ 100) :=
  ⟨timeupdate_progress_and_clamp.2.1 150,
   timeupdate_progress_and_clamp.2.2.1 1 2 (by norm_num) (by norm_num) (by norm_num)⟩

/-- C5 (witness): deleting the active recording "a" from the two-element
store removes exactly it, releases its URL and clears the playback
slot. -/
theorem onDelete_removes_exactly_one_witness :
    (onDelete s_two "a").recordings = [r_b] ∧
    "ua" ∈ (onDelete s_two "a").releasedUrls ∧
    (onDelete s_two "a").activeId = none ∧
    (onDelete s_two "a").isPlaying = false ∧
    (onDelete s_two "a").playProgress = 0 := by
  have h := onDelete_removes_exactly_one s_two "a" [r_b] r_a [] rfl rfl
    (by decide) (by decide)
  exact ⟨by simpa using h.1, h.2.1, (h.2.2.1 rfl).1, (h.2.2.1 rfl).2.1,
         (h.2.2.1 rfl).2.2.1⟩

/-- C6 (witness): playing "a" and then "b" in the two-element store
leaves "b" as the single active playing target. -/
theorem onPlay_single_active_target_witness :
    (onPlay (onPlay s_two "a" true).1 "b" true).1.activeId = some "b" ∧
    (onPlay (onPlay s_two "a" true).1 "b" true).1.isPlaying = true :=
  ⟨(onPlay_single_active_target s_two "a" "b" true (by decide)
      ⟨r_b, List.mem_cons_self r_b [r_a], rfl⟩).1,
   (onPlay_single_active_target s_two "a" "b" true (by decide)
      ⟨r_b, List.mem_cons_self r_b [r_a], rfl⟩).2.1⟩

/-- C7 (witness): two successive successful stops on the capture state
yield the most-recent-first list `[second, first]` with distinct ids. -/
theorem onstop_appends_front_witness :
    (recorderOnStop (recorderOnStop s_recording inp_ok1) inp_ok2).recordings =
      [{ id := "i3", url := "u3", name := "n3", duration := 4, createdAt := "t3" },
       { id := "i2", url := "u2", name := "n2", duration := 3, createdAt := "t2" }] := by
  have h := (onstop_appends_front s_recording inp_ok1 inp_ok2 rfl rfl (by decide)).2.2.1
  simpa [s_recording, inp_ok1, inp_ok2, measureBlobDuration] using h

/-- C8 (witness): `stopRecording` on the concrete idle state only clears
the error banner. -/
theorem stopRecording_idle_noop_witness :
    stopRecording s_idle = { s_idle with error := "" } ∧
    (stopRecording s_idle).recordings = s_idle.recordings ∧
    (stopRecording s_idle).isRecording = false :=
  ⟨(stopRecording_idle_noop s_idle rfl rfl).1,
   (stopRecording_idle_noop s_idle rfl rfl).2.2.1,
   (stopRecording_idle_noop s_idle rfl rfl).2.1⟩

/-- C9 (witness): the general rendering statement applied at 65. -/
theorem formatDuration_spec_witness :
    (0 : ℚ) ≤ 65 ∧
    formatDuration (JSNum.finite 65) = specMinutesSeconds (jsRound 65).toNat :=
  ⟨by norm_num, formatDuration_spec.2.2.2.2.2 65 (by norm_num)⟩

/-- C10 (witness): toggling play with the absent id "ghost" on the
two-element store selects it without starting playback. -/
theorem onPlay_missing_id_witness :
    (onPlay s_two "ghost" true).1.activeId = some "ghost" ∧
    (onPlay s_two "ghost" true).1.isPlaying = false ∧
    (onPlay s_two "ghost" true).1.playProgress = 0 := by
  have h := onPlay_missing_id s_two "ghost" true (by decide) (by decide) (by decide)
  exact ⟨h.1, h.2.2.1, h.2.1⟩
